import Mathlib

/-!
Verification development for the Workspace Query Orchestrator
(`app/backend.py` of the workspace-agent-service repository).

The embedding models Python JSON-like values as `PyVal`, Python runtime
exceptions as `PyErr`, and every IO boundary (`_post_json`, filesystem
writes, PDF rendering) as an explicit oracle record `Env`.  Fallible
Python code becomes `Except PyErr` values; Python `or` (truthy
short-circuit) becomes `pyOr` / `eOrElse`.  Floats that only travel
inside request payloads are carried symbolically as `PyVal.floatLit`
(they are never inspected by the logic under verification).
-/

/-- Left brace character, kept as a code point so it never appears literally. -/
def lbraceChar : Char := Char.ofNat 123

/-- Right brace character. -/
def rbraceChar : Char := Char.ofNat 125

/-- Double-quote character. -/
def dquoteChar : Char := Char.ofNat 34

/-- Single-quote character, used by the model of Python `repr`. -/
def squoteChar : Char := Char.ofNat 39

/-- String consisting of one left brace. -/
def lbraceS : String := String.singleton lbraceChar

/-- String consisting of one right brace. -/
def rbraceS : String := String.singleton rbraceChar

/-- String consisting of one single quote. -/
def squoteS : String := String.singleton squoteChar

/-- Characters treated as whitespace by Python `str.strip()` (ASCII part). -/
def isPyWhitespace (c : Char) : Bool :=
  c = ' ' || c = '\t' || c = '\n' || c = '\r' || c = Char.ofNat 11 || c = Char.ofNat 12

/-- Model of Python `str.strip()` (ASCII whitespace). -/
def pyStripStr (s : String) : String :=
  String.mk (((s.toList.dropWhile isPyWhitespace).reverse.dropWhile isPyWhitespace).reverse)

/-- ASCII lower-casing of one character (model of Python `str.lower` on ASCII). -/
def asciiLowerChar (c : Char) : Char :=
  if 'A' ≤ c ∧ c ≤ 'Z' then Char.ofNat (c.toNat + 32) else c

/-- ASCII lower-casing of a string. -/
def asciiLower (s : String) : String :=
  String.mk (s.toList.map asciiLowerChar)

/-- ASCII model of Python `str.isalnum` for a single character. -/
def isAsciiAlnum (c : Char) : Bool :=
  c.isAlpha || c.isDigit

/-- Take the first `n` characters of a string (Python `s[:n]` for `n ≥ 0`). -/
def strTake (s : String) (n : Nat) : String :=
  String.mk (s.toList.take n)

/-- Whether the first character of `s` is `c` (Python `s.startswith(c)` for a
one-character needle). -/
def strStartsWithChar (s : String) (c : Char) : Bool :=
  match s.toList with
  | [] => false
  | a :: _ => a = c

/-- Whether the last character of `s` is `c` (Python `s.endswith(c)` for a
one-character needle). -/
def strEndsWithChar (s : String) (c : Char) : Bool :=
  match s.toList.reverse with
  | [] => false
  | a :: _ => a = c

/-- Index of the first occurrence of `c`, or `none` (Python `s.find(c)` with
`-1` mapped to `none`). -/
def charFindIdx : List Char → Char → Option Nat
  | [], _ => Option.none
  | a :: rest, c =>
    if a = c then Option.some 0
    else
      match charFindIdx rest c with
      | Option.some i => Option.some (i + 1)
      | Option.none => Option.none

/-- Substring test over character lists (model of Python `sub in s`). -/
def charListContains (needle : List Char) : List Char → Bool
  | [] => needle.isEmpty
  | c :: t => needle.isPrefixOf (c :: t) || charListContains needle t

/-- Model of Python `sub in s` for strings. -/
def strContains (s sub : String) : Bool :=
  charListContains sub.toList s.toList

/-- Join a list of strings with a separator (model of Python `sep.join`). -/
def joinWith (sep : String) : List String → String
  | [] => ""
  | [x] => x
  | x :: y :: xs => x ++ sep ++ joinWith sep (y :: xs)

/-- Split a character list on `'-'`, keeping empty segments
(model of Python `s.split("-")`). -/
def splitDashAux : List Char → List Char → List String
  | [], acc => [String.mk acc.reverse]
  | c :: t, acc =>
    if c = '-' then String.mk acc.reverse :: splitDashAux t []
    else splitDashAux t (c :: acc)

/-- Model of Python `s.split("-")`. -/
def splitDash (s : String) : List String :=
  splitDashAux s.toList []

/-- Python runtime errors relevant to the orchestrator: attribute errors
(e.g. `.get` on a non-dict), type errors (e.g. slicing a non-sequence),
OS errors from the file store, and `WorkspaceBackendError` raised by
`_post_json`. -/
inductive PyErr where
  | attributeError (ctx : String)
  | typeError (ctx : String)
  | oserror (ctx : String)
  | backendError (ctx : String)
deriving DecidableEq, Repr

/-- JSON-like Python values.  `floatLit` carries a float literal by its
source text; floats occur only inside opaque request payloads. -/
inductive PyVal where
  | none
  | bool (b : Bool)
  | int (n : Int)
  | floatLit (s : String)
  | str (s : String)
  | list (xs : List PyVal)
  | dict (kvs : List (String × PyVal))

/-- Python truthiness of a `PyVal`.  Float literals other than the usual
zero spellings are treated as truthy; the orchestrator never branches on a
float. -/
def pyTruthy : PyVal → Bool
  | PyVal.none => false
  | PyVal.bool b => b
  | PyVal.int n => n ≠ 0
  | PyVal.floatLit s => ¬ (s = "0.0" ∨ s = "-0.0" ∨ s = "0")
  | PyVal.str s => s ≠ ""
  | PyVal.list xs => ¬ xs.isEmpty
  | PyVal.dict kvs => ¬ kvs.isEmpty

/-- Association-list lookup for `dict` entries (first match; the JSON
decoder below keeps keys unique). -/
def dictLookup : List (String × PyVal) → String → Option PyVal
  | [], _ => Option.none
  | (k, v) :: rest, key => if k = key then Option.some v else dictLookup rest key

/-- Python `d.get(key)` with default `d.get(key, dflt)` on a known dict. -/
def dictGetD (kvs : List (String × PyVal)) (key : String) (dflt : PyVal) : PyVal :=
  (dictLookup kvs key).getD dflt

/-- Python `v.get(key)`: `None` default on a dict, `AttributeError` on
anything else. -/
def pyGet (v : PyVal) (key : String) : Except PyErr PyVal :=
  match v with
  | PyVal.dict kvs => Except.ok (dictGetD kvs key PyVal.none)
  | _ => Except.error (PyErr.attributeError "get")

/-- Python `v.get(key, dflt)`: default on a dict, `AttributeError` otherwise. -/
def pyGetD (v : PyVal) (key : String) (dflt : PyVal) : Except PyErr PyVal :=
  match v with
  | PyVal.dict kvs => Except.ok (dictGetD kvs key dflt)
  | _ => Except.error (PyErr.attributeError "get")

/-- Python `a or b` on already-computed values. -/
def pyOr (a b : PyVal) : PyVal :=
  if pyTruthy a then a else b

/-- Explicit bind on `Except PyErr`, written as a plain match so every
definition unfolds by `rfl` and splits cleanly in proofs. -/
def ebind {α β : Type} (x : Except PyErr α) (f : α → Except PyErr β) : Except PyErr β :=
  match x with
  | Except.error e => Except.error e
  | Except.ok v => f v

/-- Python `a or b` where both operands are fallible expressions and `b` is
evaluated lazily, exactly like Python short-circuit `or`. -/
def eOrElse (a : Except PyErr PyVal) (b : Unit → Except PyErr PyVal) : Except PyErr PyVal :=
  match a with
  | Except.error e => Except.error e
  | Except.ok v => if pyTruthy v then Except.ok v else b ()

/-- Model of Python `repr` on JSON-like values (used by `str` on
containers; string escaping inside `repr` is not modelled, which no
orchestrator branch depends on). -/
def pyReprV : PyVal → String
  | PyVal.none => "None"
  | PyVal.bool true => "True"
  | PyVal.bool false => "False"
  | PyVal.int i => toString i
  | PyVal.floatLit s => s
  | PyVal.str s => squoteS ++ s ++ squoteS
  | PyVal.list xs => "[" ++ joinWith ", " (xs.attach.map (fun z => pyReprV z.1)) ++ "]"
  | PyVal.dict kvs =>
    lbraceS ++
      joinWith ", "
        (kvs.attach.map (fun z => squoteS ++ z.1.1 ++ squoteS ++ ": " ++ pyReprV z.1.2)) ++
      rbraceS
decreasing_by
  all_goals first
    | (have hlt := List.sizeOf_lt_of_mem z.2
       simp only [PyVal.list.sizeOf_spec]
       omega)
    | (obtain ⟨⟨a, b⟩, hm⟩ := z
       have := List.sizeOf_lt_of_mem hm
       simp only [PyVal.dict.sizeOf_spec, Prod.mk.sizeOf_spec] at *
       omega)

/-- Model of Python `str(v)`: identity on strings, `repr`-style otherwise. -/
def pyStr (v : PyVal) : String :=
  match v with
  | PyVal.str s => s
  | _ => pyReprV v

/-- Python `str(x).strip()` where `x` must already be a string, as in the
value returned by the generation wrapper; anything else raises
`AttributeError` exactly as `.strip()` does on a non-string. -/
def pyStripE (v : PyVal) : Except PyErr String :=
  match v with
  | PyVal.str s => Except.ok (pyStripStr s)
  | _ => Except.error (PyErr.attributeError "strip")

/-! ## JSON decoding (model of `json.loads`)

A fuel-bounded recursive-descent decoder for the JSON grammar accepted by
Python `json.loads`: objects, arrays, strings with escapes, integers,
floats (kept as `floatLit` text), `true`/`false`/`null`.  Later duplicate
object keys overwrite earlier ones in place, as in a Python dict.  The
non-standard `NaN`/`Infinity` extensions are not modelled.  The fuel is
instantiated from the input length, which bounds the number of recursive
descents, so the decoder is structurally recursive and evaluates inside
the kernel. -/

/-- JSON whitespace skipping. -/
def skipJsonWs (cs : List Char) : List Char :=
  cs.dropWhile (fun c => c = ' ' || c = '\t' || c = '\n' || c = '\r')

/-- Hexadecimal digit value. -/
def hexVal (c : Char) : Option Nat :=
  if c.isDigit then Option.some (c.toNat - '0'.toNat)
  else if 'a' ≤ c ∧ c ≤ 'f' then Option.some (c.toNat - 'a'.toNat + 10)
  else if 'A' ≤ c ∧ c ≤ 'F' then Option.some (c.toNat - 'A'.toNat + 10)
  else Option.none

/-- JSON string body decoder (after the opening quote), with escapes. -/
def jStringAux : List Char → List Char → Option (String × List Char)
  | [], _ => Option.none
  | c :: rest, acc =>
    if c = dquoteChar then Option.some (String.mk acc.reverse, rest)
    else if c = '\\' then
      match rest with
      | [] => Option.none
      | e :: rest2 =>
        if e = dquoteChar then jStringAux rest2 (dquoteChar :: acc)
        else if e = '\\' then jStringAux rest2 ('\\' :: acc)
        else if e = '/' then jStringAux rest2 ('/' :: acc)
        else if e = 'n' then jStringAux rest2 ('\n' :: acc)
        else if e = 't' then jStringAux rest2 ('\t' :: acc)
        else if e = 'r' then jStringAux rest2 ('\r' :: acc)
        else if e = 'b' then jStringAux rest2 (Char.ofNat 8 :: acc)
        else if e = 'f' then jStringAux rest2 (Char.ofNat 12 :: acc)
        else if e = 'u' then
          match rest2 with
          | a :: b :: c2 :: d :: rest3 =>
            match hexVal a, hexVal b, hexVal c2, hexVal d with
            | Option.some ha, Option.some hb, Option.some hc, Option.some hd =>
              jStringAux rest3 (Char.ofNat (((ha * 16 + hb) * 16 + hc) * 16 + hd) :: acc)
            | _, _, _, _ => Option.none
          | _ => Option.none
        else Option.none
    else jStringAux rest (c :: acc)

/-- Numeric value of a digit list. -/
def digitsVal (ds : List Char) : Nat :=
  ds.foldl (fun acc c => acc * 10 + (c.toNat - '0'.toNat)) 0

/-- Exponent part of a JSON number: absent (`some ([], cs)`), present and
well-formed (consumed characters returned), or malformed (`none`). -/
def jExpPart (cs : List Char) : Option (List Char × List Char) :=
  match cs with
  | e :: t =>
    if e = 'e' || e = 'E' then
      let (sign, t2) :=
        match t with
        | '+' :: t3 => (['+'], t3)
        | '-' :: t3 => (['-'], t3)
        | _ => (([] : List Char), t)
      let ds := t2.takeWhile Char.isDigit
      if ds.isEmpty then Option.none
      else Option.some (e :: (sign ++ ds), t2.drop ds.length)
    else Option.some ([], cs)
  | [] => Option.some ([], cs)

/-- JSON number decoder: integers become `PyVal.int`, numbers with a
fractional or exponent part become `PyVal.floatLit` carrying their text. -/
def jNumber (cs : List Char) : Option (PyVal × List Char) :=
  let signed := match cs with | '-' :: _ => true | _ => false
  let cs1 := if signed then cs.drop 1 else cs
  let ds := cs1.takeWhile Char.isDigit
  if ds.isEmpty then Option.none
  else
    let rest := cs1.drop ds.length
    let intText : List Char := (if signed then ['-'] else []) ++ ds
    match rest with
    | '.' :: t =>
      let fd := t.takeWhile Char.isDigit
      if fd.isEmpty then Option.none
      else
        match jExpPart (t.drop fd.length) with
        | Option.some (ec, rest2) =>
          Option.some (PyVal.floatLit (String.mk (intText ++ '.' :: fd ++ ec)), rest2)
        | Option.none => Option.none
    | _ =>
      match jExpPart rest with
      | Option.some ([], _) =>
        Option.some (PyVal.int (if signed then -(digitsVal ds : Int) else (digitsVal ds : Int)), rest)
      | Option.some (ec, rest2) =>
        Option.some (PyVal.floatLit (String.mk (intText ++ ec)), rest2)
      | Option.none => Option.none

/-- Insert or overwrite a key in place, as Python dict assignment does. -/
def upsertKV : List (String × PyVal) → String → PyVal → List (String × PyVal)
  | [], k, v => [(k, v)]
  | (k0, v0) :: rest, k, v =>
    if k0 = k then (k0, v) :: rest else (k0, v0) :: upsertKV rest k v

mutual

/-- JSON value decoder with fuel. -/
def jVal : Nat → List Char → Option (PyVal × List Char)
  | 0, _ => Option.none
  | n + 1, cs =>
    let cs2 := skipJsonWs cs
    match cs2 with
    | [] => Option.none
    | c :: rest =>
      if c = dquoteChar then
        match jStringAux rest [] with
        | Option.some (s, r) => Option.some (PyVal.str s, r)
        | Option.none => Option.none
      else if c = lbraceChar then jObjItems n true rest []
      else if c = '[' then jArrItems n true rest []
      else if ['t', 'r', 'u', 'e'].isPrefixOf cs2 then Option.some (PyVal.bool true, cs2.drop 4)
      else if ['f', 'a', 'l', 's', 'e'].isPrefixOf cs2 then Option.some (PyVal.bool false, cs2.drop 5)
      else if ['n', 'u', 'l', 'l'].isPrefixOf cs2 then Option.some (PyVal.none, cs2.drop 4)
      else if c = '-' || c.isDigit then jNumber cs2
      else Option.none

/-- JSON object members decoder; `allowClose` is true only directly after
the opening brace, so a trailing comma is rejected. -/
def jObjItems : Nat → Bool → List Char → List (String × PyVal) → Option (PyVal × List Char)
  | 0, _, _, _ => Option.none
  | n + 1, allowClose, cs, acc =>
    let cs2 := skipJsonWs cs
    match cs2 with
    | [] => Option.none
    | c :: rest =>
      if c = rbraceChar ∧ allowClose then Option.some (PyVal.dict acc, rest)
      else if c = dquoteChar then
        match jStringAux rest [] with
        | Option.some (key, r1) =>
          match skipJsonWs r1 with
          | ':' :: r2 =>
            match jVal n r2 with
            | Option.some (v, r3) =>
              let acc2 := upsertKV acc key v
              match skipJsonWs r3 with
              | ',' :: r4 => jObjItems n false r4 acc2
              | d :: r4 =>
                if d = rbraceChar then Option.some (PyVal.dict acc2, r4) else Option.none
              | [] => Option.none
            | Option.none => Option.none
          | _ => Option.none
        | Option.none => Option.none
      else Option.none

/-- JSON array elements decoder; `allowClose` is true only directly after
the opening bracket. -/
def jArrItems : Nat → Bool → List Char → List PyVal → Option (PyVal × List Char)
  | 0, _, _, _ => Option.none
  | n + 1, allowClose, cs, acc =>
    let cs2 := skipJsonWs cs
    match cs2 with
    | [] => Option.none
    | c :: _ =>
      if c = ']' ∧ allowClose then Option.some (PyVal.list acc.reverse, cs2.drop 1)
      else
        match jVal n cs2 with
        | Option.some (v, r1) =>
          match skipJsonWs r1 with
          | ',' :: r2 => jArrItems n false r2 (v :: acc)
          | ']' :: r2 => Option.some (PyVal.list (v :: acc).reverse, r2)
          | _ => Option.none
        | Option.none => Option.none

end

/-- Model of Python `json.loads`: decode one JSON document, requiring only
whitespace after it; any failure maps to `none` (a raised `ValueError`). -/
def json_loads (s : String) : Option PyVal :=
  match jVal (s.toList.length + 4) s.toList with
  | Option.some (v, rest) => if (skipJsonWs rest).isEmpty then Option.some v else Option.none
  | Option.none => Option.none

/-! ## Manager decision parsing (`_decide_next_action`, backend.py 297-317) -/

/-- Structured decision produced by the manager policy parser. -/
structure Decision where
  action : String
  reason : String
deriving DecidableEq, Repr

/-- Diagnostic reason used by `_decide_next_action` when decoding fails. -/
def failParseMsg : String := "Failed to parse JSON; defaulting to final."

/-- Brace trimming applied by `_decide_next_action` before `json.loads`:
drop everything before the first open brace when the text does not start
with one, then everything after the last close brace when it does not end
with one (each step skipped when the brace is absent). -/
def trim_to_braces (s : String) : String :=
  let s1 :=
    if strStartsWithChar s lbraceChar then s
    else
      match charFindIdx s.toList lbraceChar with
      | Option.some i => String.mk (s.toList.drop i)
      | Option.none => s
  if strEndsWithChar s1 rbraceChar then s1
  else
    match charFindIdx s1.toList.reverse rbraceChar with
    | Option.some j => String.mk (s1.toList.take (s1.toList.length - j))
    | Option.none => s1

/-- The try-block of `_decide_next_action` applied to a decoded JSON value,
followed by the vocabulary check: `str(data.get("action","final")).lower()`
and `str(data.get("reason","")).strip()`; a non-dict value makes `.get`
raise, which the bare `except` turns into the diagnostic default; an
action outside the vocabulary is forced to `"final"` with the decoded
reason kept. -/
def decision_of_json : PyVal → Decision
  | PyVal.dict kvs =>
    let action := asciiLower (pyStr (dictGetD kvs "action" (PyVal.str "final")))
    let reason := pyStripStr (pyStr (dictGetD kvs "reason" (PyVal.str "")))
    if action = "rag" || action = "copilot" || action = "final" then
      Decision.mk action reason
    else
      Decision.mk "final" reason
  | _ => Decision.mk "final" failParseMsg

/-- Pure core of `_decide_next_action`: strip, trim to braces, decode,
extract, validate.  Total on every raw policy-model text. -/
def parse_decision (raw : String) : Decision :=
  let raw_str := trim_to_braces (pyStripStr raw)
  match json_loads raw_str with
  | Option.some data => decision_of_json data
  | Option.none => Decision.mk "final" failParseMsg

/-! ## Configuration and the IO boundary

`os.getenv` defaults from backend.py are taken as the configuration (the
spec treats base addresses and model names as read-only configuration).
All IO — `_post_json` calls and the Document Export file operations — is
an explicit oracle `Env`, so every strategy is a pure function of the
request and the oracle. -/

/-- Default Study RAG base address. -/
def STUDY_RAG_BASE_URL : String := "http://host.docker.internal:8080"

/-- Default Lab Copilot base address. -/
def LAB_COPILOT_BASE_URL : String := "http://host.docker.internal:8081"

/-- Default Ollama base address. -/
def OLLAMA_BASE_URL : String := "http://host.docker.internal:11434"

/-- Default chat model. -/
def WORKSPACE_CHAT_MODEL : String := "llama3.1"

/-- Manager model, defaulting to the chat model. -/
def WORKSPACE_MANAGER_MODEL : String := WORKSPACE_CHAT_MODEL

/-- Study model, defaulting to the chat model. -/
def WORKSPACE_STUDY_MODEL : String := WORKSPACE_CHAT_MODEL

/-- Oracle for every effect of the orchestrator: `postJson url payload`
models `_post_json` (its `Except.error` is a raised
`WorkspaceBackendError`); `mkdirStudyGuides` models
`Path("data/study_guides").mkdir(parents=True, exist_ok=True)`;
`writeText path text` models `Path.write_text`; `renderPdf path text`
models the whole optional PDF pipeline (the `markdown`/`weasyprint`
imports, HTML conversion and `write_pdf`), whose failure the source
swallows. -/
structure Env where
  postJson : String → PyVal → Except PyErr PyVal
  mkdirStudyGuides : Except PyErr Unit
  writeText : String → String → Except PyErr Unit
  renderPdf : String → String → Except PyErr Unit

/-- Model of `_generate_text` (backend.py 54-72): post the generation
payload to Ollama and return `(data.get("response") or "").strip()`.
`max_tokens` is accepted but, as in the source, never placed in the
payload. -/
def generate_text (env : Env) (prompt : String) (model : String)
    (temperature : PyVal) (max_tokens : Int) : Except PyErr String :=
  let _ := max_tokens
  let payload := PyVal.dict
    [("model", PyVal.str model), ("prompt", PyVal.str prompt),
     ("temperature", temperature), ("num_ctx", PyVal.int 4096),
     ("stream", PyVal.bool false)]
  ebind (env.postJson (OLLAMA_BASE_URL ++ "/api/generate") payload) fun data =>
  ebind (eOrElse (pyGet data "response") (fun _ => Except.ok (PyVal.str ""))) fun v =>
  pyStripE v

/-- Model of `_call_study_rag_query` (backend.py 80-85). -/
def call_study_rag_query (env : Env) (question : String) (k : Int) : Except PyErr PyVal :=
  env.postJson (STUDY_RAG_BASE_URL ++ "/query")
    (PyVal.dict [("question", PyVal.str question), ("k", PyVal.int k)])

/-- Model of `_call_lab_copilot_chat` (backend.py 137-145). -/
def call_lab_copilot_chat (env : Env) (question : String) (top_k : Int) : Except PyErr PyVal :=
  env.postJson (LAB_COPILOT_BASE_URL ++ "/chat")
    (PyVal.dict [("question", PyVal.str question), ("top_k", PyVal.int top_k)])

/-! ## Response Normalizer (`_normalise_rag_query`, backend.py 88-134) -/

/-- One normalized retrieval chunk.  Field values other than `idx` keep
their dynamic `PyVal` type, because the source copies whatever the
backend supplied. -/
structure Chunk where
  idx : Nat
  source : PyVal
  page : PyVal
  chunk_id : PyVal
  text : PyVal

/-- Normalized retrieval result: `answer` (the raw payload answer, or an
empty string), the canonical chunk list, and the raw payload. -/
structure RagResult where
  answer : PyVal
  chunks : List Chunk
  raw : PyVal

/-- Python list slicing `xs[:k]` including negative `k` (drop that many
from the end). -/
def pyTakeInt {α : Type} (xs : List α) (k : Int) : List α :=
  if 0 ≤ k then xs.take k.toNat else xs.take (xs.length - (-k).toNat)

/-- Python `v[:k]` followed by iteration, as in
`for i, item in enumerate(raw_chunks[:top_k])`: lists iterate their
items, strings iterate one-character strings, anything else raises
`TypeError` when sliced. -/
def pySliceIter (v : PyVal) (k : Int) : Except PyErr (List PyVal) :=
  match v with
  | PyVal.list xs => Except.ok (pyTakeInt xs k)
  | PyVal.str s => Except.ok ((pyTakeInt s.toList k).map (fun c => PyVal.str (String.singleton c)))
  | _ => Except.error (PyErr.typeError "slice")

/-- Snippet-list location (backend.py 97-102):
`resp.get("chunks") or resp.get("retrieved") or resp.get("results") or []`
with Python short-circuit `or`, i.e. a present-but-falsy key falls
through to the next alternative. -/
def locate_raw_chunks (resp : PyVal) : Except PyErr PyVal :=
  eOrElse (pyGet resp "chunks") (fun _ =>
  eOrElse (pyGet resp "retrieved") (fun _ =>
  eOrElse (pyGet resp "results") (fun _ =>
  Except.ok (PyVal.list []))))

/-- Normalization of one snippet item at 1-based position `idx`
(backend.py 105-128): metadata defaulting, text / source / page /
chunk-id extraction with Python `or` chains. -/
def norm_item (idx : Nat) (item : PyVal) : Except PyErr Chunk :=
  ebind (pyGet item "metadata") fun mRaw =>
  let metadata := pyOr mRaw (PyVal.dict [])
  ebind (eOrElse (pyGet item "content") (fun _ =>
         eOrElse (pyGet item "text") (fun _ =>
         eOrElse (pyGet item "page_content") (fun _ =>
         eOrElse (pyGet metadata "text") (fun _ =>
         Except.ok (PyVal.str "")))))) fun text =>
  ebind (eOrElse (pyGet item "source") (fun _ =>
         eOrElse (pyGet metadata "source") (fun _ =>
         eOrElse (pyGet metadata "file_name") (fun _ =>
         Except.ok (PyVal.str "chunk"))))) fun source =>
  ebind (pyGet metadata "page") fun page =>
  ebind (eOrElse (pyGet item "chunk_id") (fun _ => pyGet metadata "chunk_id")) fun cid =>
  Except.ok (Chunk.mk idx source page cid text)

/-- Normalization of the sliced item list starting at 0-based position
`i` (the enumeration of backend.py 105). -/
def norm_items : List PyVal → Nat → Except PyErr (List Chunk)
  | [], _ => Except.ok []
  | item :: rest, i =>
    ebind (norm_item (i + 1) item) fun c =>
    ebind (norm_items rest (i + 1)) fun cs =>
    Except.ok (c :: cs)

/-- Model of `_normalise_rag_query` (backend.py 88-134). -/
def normalise_rag_query (resp : PyVal) (top_k : Int) : Except PyErr RagResult :=
  ebind (locate_raw_chunks resp) fun rawChunks =>
  ebind (pySliceIter rawChunks top_k) fun items =>
  ebind (norm_items items 0) fun chunks =>
  ebind (eOrElse (pyGet resp "answer") (fun _ => Except.ok (PyVal.str ""))) fun ans =>
  Except.ok (RagResult.mk ans chunks resp)

/-! ## Trace and result envelope -/

/-- One trace entry.  `summary` keeps its dynamic type: the loop stores
`summary[:400]`, which in Python may be a sliced non-string when a
backend returns one. -/
structure TraceStep where
  step : Nat
  tool : String
  summary : PyVal

/-- The uniform result envelope.  The source returns dicts; dict keys that
a given strategy omits (`markdown_url`, `pdf_url` outside study-guide
mode) are `none` here. -/
structure QueryResult where
  mode : String
  question : String
  top_k : Int
  answer : PyVal
  rag : Option RagResult
  copilot : Option PyVal
  agent_trace : List TraceStep
  markdown_url : Option String
  pdf_url : Option String

/-- Python `v[:k]` on a trace summary (`summary[:400]`): strings and lists
slice, anything else raises `TypeError`. -/
def pySliceVal (v : PyVal) (k : Nat) : Except PyErr PyVal :=
  match v with
  | PyVal.str s => Except.ok (PyVal.str (strTake s k))
  | PyVal.list xs => Except.ok (PyVal.list (xs.take k))
  | _ => Except.error (PyErr.typeError "slice")

/-- History rendering shared by the decision prompt and the final-answer
prompt: one line per step. -/
def render_history (history : List TraceStep) : String :=
  joinWith "\n"
    (history.map (fun h => "Step " ++ toString h.step ++ " via " ++ h.tool ++ ": " ++ pyStr h.summary))

/-! ## Mode 1: RAG only (`_run_rag_only`, backend.py 153-190) -/

/-- Numbered context block built from the chunk list. -/
def chunks_ctx (chunks : List Chunk) : String :=
  joinWith "\n\n" (chunks.map (fun c => "[" ++ toString c.idx ++ "] " ++ pyStr c.text))

/-- Grounding prompt of `_run_rag_only`. -/
def rag_prompt (question ctx : String) : String :=
  "The user asked:\n" ++ question ++
  "\n\nHere are context snippets from their Study RAG library:\n" ++ ctx ++
  "\n\nProvide a short, direct answer using ONLY this context.\nIf you truly cannot answer from it, say so honestly."

/-- Model of `_run_rag_only`. -/
def run_rag_only (env : Env) (question : String) (top_k : Int) : Except PyErr QueryResult :=
  ebind (call_study_rag_query env question top_k) fun raw =>
  ebind (normalise_rag_query raw top_k) fun rag_result =>
  let answer := pyOr rag_result.answer (PyVal.str "")
  if !(pyTruthy answer) && !(rag_result.chunks.isEmpty) then
    ebind (generate_text env (rag_prompt question (chunks_ctx rag_result.chunks))
            WORKSPACE_CHAT_MODEL (PyVal.floatLit "0.2") 512) fun ans =>
    Except.ok (QueryResult.mk "rag_only" question top_k (PyVal.str ans)
      (Option.some rag_result) Option.none [] Option.none Option.none)
  else
    Except.ok (QueryResult.mk "rag_only" question top_k answer
      (Option.some rag_result) Option.none [] Option.none Option.none)

/-! ## Mode 2: Copilot (`_run_copilot`, backend.py 198-239) -/

/-- Fallback prompt of `_run_copilot` (no honesty sentence, unlike
`rag_only`). -/
def copilot_prompt (question ctx : String) : String :=
  "The user asked:\n" ++ question ++
  "\n\nHere are context snippets from their Study RAG library:\n" ++ ctx ++
  "\n\nProvide a short, direct answer using ONLY this context."

/-- Model of `_run_copilot`. -/
def run_copilot (env : Env) (question : String) (top_k : Int) : Except PyErr QueryResult :=
  ebind (call_study_rag_query env question top_k) fun raw =>
  ebind (normalise_rag_query raw top_k) fun rag_result =>
  ebind (call_lab_copilot_chat env question top_k) fun copilot_result =>
  ebind (eOrElse (pyGet copilot_result "answer")
          (fun _ => Except.ok (pyOr rag_result.answer (PyVal.str "")))) fun answer =>
  if !(pyTruthy answer) && !(rag_result.chunks.isEmpty) then
    ebind (generate_text env (copilot_prompt question (chunks_ctx rag_result.chunks))
            WORKSPACE_CHAT_MODEL (PyVal.floatLit "0.2") 512) fun ans =>
    Except.ok (QueryResult.mk "copilot" question top_k (PyVal.str ans)
      (Option.some rag_result) (Option.some copilot_result) [] Option.none Option.none)
  else
    Except.ok (QueryResult.mk "copilot" question top_k answer
      (Option.some rag_result) (Option.some copilot_result) [] Option.none Option.none)

/-! ## Mode 3: Manager-auto (`_decide_next_action` and `_run_manager_auto`,
backend.py 247-405) -/

/-- Decision prompt of `_decide_next_action` (the dedented literal, with
the doubled braces of the f-string rendered once). -/
def decide_prompt (question hist_text : String) : String :=
  "You are the manager brain for Workspace Agent.\n\nThe user asked:\n" ++ question ++
  "\n\nInternal tool-call history so far:\n" ++ hist_text ++
  "\n\nTools you can choose:\n  - \"rag\": call Study RAG /query to fetch top-K chunks.\n  - \"copilot\": call Lab Copilot /chat (which itself uses RAG).\n  - \"final\": stop calling tools and produce the final answer.\n\nRespond with STRICT JSON, no extra text:\n" ++
  lbraceS ++ "\n  \"action\": \"rag\" | \"copilot\" | \"final\",\n  \"reason\": \"short explanation\"\n" ++ rbraceS

/-- Model of `_decide_next_action`: render the history, query the policy
model at low temperature, parse tolerantly. -/
def decide_next_action (env : Env) (question : String) (history : List TraceStep) :
    Except PyErr Decision :=
  let hist_text := if history.isEmpty then "(no previous steps)" else render_history history
  ebind (generate_text env (decide_prompt question hist_text)
          WORKSPACE_MANAGER_MODEL (PyVal.floatLit "0.1") 256) fun raw =>
  Except.ok (parse_decision raw)

/-- The bounded decision loop of `_run_manager_auto` (backend.py 329-367),
with the remaining iteration count as fuel and the accumulated history
and most recent tool results threaded explicitly. -/
def manager_loop (env : Env) (question : String) (top_k : Int) :
    Nat → List TraceStep → Option RagResult → Option PyVal →
    Except PyErr (List TraceStep × Option RagResult × Option PyVal)
  | 0, history, rag_result, copilot_result =>
    Except.ok (history, rag_result, copilot_result)
  | Nat.succ n, history, rag_result, copilot_result =>
    ebind (decide_next_action env question history) fun decision =>
    if decision.action = "final" then
      Except.ok
        (history ++ [TraceStep.mk (history.length + 1) "manager"
          (PyVal.str ("Stop and answer now. Reason: " ++ decision.reason))],
         rag_result, copilot_result)
    else if decision.action = "rag" then
      ebind (call_study_rag_query env question top_k) fun raw =>
      ebind (normalise_rag_query raw top_k) fun rres =>
      let summaryV := pyOr rres.answer
        (match rres.chunks with
         | [] => PyVal.str "(no chunks)"
         | c :: _ => c.text)
      ebind (pySliceVal summaryV 400) fun s =>
      manager_loop env question top_k n
        (history ++ [TraceStep.mk (history.length + 1) "rag" s])
        (Option.some rres) copilot_result
    else if decision.action = "copilot" then
      ebind (call_lab_copilot_chat env question top_k) fun craw =>
      ebind (eOrElse (pyGet craw "answer") (fun _ => Except.ok (PyVal.str "(no answer)"))) fun av =>
      ebind (pySliceVal av 400) fun s =>
      manager_loop env question top_k n
        (history ++ [TraceStep.mk (history.length + 1) "copilot" s])
        rag_result (Option.some craw)
    else
      manager_loop env question top_k n history rag_result copilot_result

/-- Final-answer prompt of `_run_manager_auto`. -/
def final_prompt (question hist_text : String) : String :=
  "You are Workspace Agent.\n\nThe user asked:\n" ++ question ++
  "\n\nHere is the internal tool-call trace:\n" ++ hist_text ++
  "\n\nUsing ONLY what is implied or explicitly stated in that trace,\nprovide a clear, concise answer. If information is missing, say so\ninstead of hallucinating."

/-- Model of `_run_manager_auto` with an explicit step cap
(`max_tool_calls`, default 4 at the call site). -/
def run_manager_auto (env : Env) (question : String) (top_k : Int)
    (max_tool_calls : Nat) : Except PyErr QueryResult :=
  ebind (manager_loop env question top_k max_tool_calls [] Option.none Option.none) fun out =>
  let history := out.1
  let rendered := render_history history
  let hist_text := if rendered = "" then "(no internal steps executed)" else rendered
  ebind (generate_text env (final_prompt question hist_text)
          WORKSPACE_MANAGER_MODEL (PyVal.floatLit "0.2") 512) fun answer =>
  Except.ok (QueryResult.mk "manager_auto" question top_k (PyVal.str answer)
    out.2.1 out.2.2 history Option.none Option.none)

/-! ## Mode 4: Study guide (`_slugify`, `_save_study_guide_files`,
`_run_study_guide`, backend.py 412-531) -/

/-- Model of `_slugify`: map non-alphanumerics to dashes, split on dashes,
drop empty parts, rejoin, fall back to the literal "guide". -/
def slugify (text : String) : String :=
  let base := String.mk (text.toList.map (fun ch => if isAsciiAlnum ch then asciiLowerChar ch else '-'))
  let joined := joinWith "-" ((splitDash base).filter (fun p => p ≠ ""))
  if joined = "" then "guide" else joined

/-- Slug actually used for filenames: `_slugify(question)[:80]`. -/
def slug_of (question : String) : String := strTake (slugify question) 80

/-- Markdown file path derived from the question. -/
def md_path_of (question : String) : String := "data/study_guides/" ++ slug_of question ++ ".md"

/-- Markdown public URL derived from the question. -/
def md_url_of (question : String) : String := "/guides/" ++ slug_of question ++ ".md"

/-- PDF file path derived from the question. -/
def pdf_path_of (question : String) : String := "data/study_guides/" ++ slug_of question ++ ".pdf"

/-- PDF public URL derived from the question. -/
def pdf_url_of (question : String) : String := "/guides/" ++ slug_of question ++ ".pdf"

/-- Return shape of `_save_study_guide_files`. -/
structure SaveInfo where
  markdown_path : String
  markdown_url : String
  pdf_path : Option String
  pdf_url : Option String

/-- Model of `_save_study_guide_files` (backend.py 418-455): the
directory creation and the markdown write propagate failure; the PDF
pipeline is wrapped in try/except and any failure leaves both PDF fields
absent. -/
def save_study_guide_files (env : Env) (markdown_text question : String) :
    Except PyErr SaveInfo :=
  ebind env.mkdirStudyGuides fun _ =>
  ebind (env.writeText (md_path_of question) markdown_text) fun _ =>
  match env.renderPdf (pdf_path_of question) markdown_text with
  | Except.ok _ =>
    Except.ok (SaveInfo.mk (md_path_of question) (md_url_of question)
      (Option.some (pdf_path_of question)) (Option.some (pdf_url_of question)))
  | Except.error _ =>
    Except.ok (SaveInfo.mk (md_path_of question) (md_url_of question)
      Option.none Option.none)

/-- Study-guide prompt of `_run_study_guide`. -/
def study_prompt (question ctx : String) : String :=
  "You are a strict but helpful study planner.\n\nThe user wants a study guide for:\n" ++ question ++
  "\n\nHere is the context from their Study RAG library:\n" ++ ctx ++
  "\n\nBuild a clear, structured study guide that stays grounded in the context.\nRequirements:\n- Use markdown.\n- Start with a short overview.\n- Then create 5-10 sections with headings.\n- Under each section, list concrete bullet points, exercises, or checkpoints.\n- Do NOT invent facts that are not supported by the context."

/-- Model of `_run_study_guide`. -/
def run_study_guide (env : Env) (question : String) (top_k : Int) : Except PyErr QueryResult :=
  ebind (call_study_rag_query env question top_k) fun raw =>
  ebind (normalise_rag_query raw top_k) fun rag_result =>
  let ctx :=
    if !(rag_result.chunks.isEmpty) then chunks_ctx rag_result.chunks
    else pyStr (pyOr rag_result.answer (PyVal.str "(no context found)"))
  ebind (generate_text env (study_prompt question ctx)
          WORKSPACE_STUDY_MODEL (PyVal.floatLit "0.3") 1024) fun guide =>
  ebind (save_study_guide_files env guide question) fun file_info =>
  Except.ok (QueryResult.mk "study_guide" question top_k (PyVal.str guide)
    (Option.some rag_result) Option.none
    [TraceStep.mk 1 "rag" (PyVal.str ("Fetched top-" ++ toString top_k ++ " chunks from Study RAG.")),
     TraceStep.mk 2 "study_guide_llm" (PyVal.str "Generated a structured study guide based on RAG context."),
     TraceStep.mk 3 "file_export" (PyVal.str "Saved guide as markdown and optional PDF.")]
    (Option.some file_info.markdown_url) file_info.pdf_url)

/-! ## Public entrypoint (`run_workspace_query`, backend.py 541-607) -/

/-- Synthetic trace entry prepended by the manager-auto study-guide
override. -/
def direct_step : TraceStep :=
  TraceStep.mk 1 "study_guide (direct)"
    (PyVal.str "User explicitly asked for a study guide/plan, so manager delegated directly to the study_guide tool.")

/-- The manager_auto branch of `run_workspace_query` (backend.py 577-604):
a question that asks for a study guide/plan bypasses the decision loop,
runs the study-guide strategy, gets the synthetic trace entry prepended,
and is relabelled; otherwise the normal loop runs with its default cap of
4. -/
def manager_mode (env : Env) (question : String) (top_k : Int) : Except PyErr QueryResult :=
  let q_lower := asciiLower question
  if strContains q_lower "study guide" || strContains q_lower "study plan" ||
      strContains q_lower "learning plan" then
    ebind (run_study_guide env question top_k) fun sg =>
    Except.ok (QueryResult.mk "manager_auto" sg.question sg.top_k sg.answer sg.rag sg.copilot
      (direct_step :: sg.agent_trace) sg.markdown_url sg.pdf_url)
  else
    run_manager_auto env question top_k 4

/-- Model of `run_workspace_query`: trim, short-circuit empty questions,
lower-case and dispatch the mode, defaulting to copilot. -/
def run_workspace_query (env : Env) (question : String) (top_k : Int) (mode : String) :
    Except PyErr QueryResult :=
  let q := pyStripStr question
  if q = "" then
    Except.ok (QueryResult.mk mode "" top_k (PyVal.str "")
      Option.none Option.none [] Option.none Option.none)
  else
    let m := asciiLower (if mode = "" then "copilot" else mode)
    if m = "rag_only" then run_rag_only env q top_k
    else if m = "study_guide" then run_study_guide env q top_k
    else if m = "manager_auto" then manager_mode env q top_k
    else run_copilot env q top_k

/-! ## Well-formedness of retrieval payloads

`good_payload` captures the payload shapes on which the normalizer cannot
raise: the payload is an object, the located snippet value is a list (or
falsy), and every examined item is an object whose `metadata` field, when
truthy, is an object. -/

/-- One snippet item on which `norm_item` cannot raise. -/
def good_item (v : PyVal) : Bool :=
  match v with
  | PyVal.dict kvs =>
    (match pyOr (dictGetD kvs "metadata" PyVal.none) (PyVal.dict []) with
     | PyVal.dict _ => true
     | _ => false)
  | _ => false

/-- A retrieval payload on which `_normalise_rag_query` cannot raise. -/
def good_payload (resp : PyVal) (k : Int) : Bool :=
  match resp with
  | PyVal.dict _ =>
    (match locate_raw_chunks resp with
     | Except.ok (PyVal.list xs) => (pyTakeInt xs k).all good_item
     | _ => false)
  | _ => false

/-! ## Concrete fixtures used by witnesses and counterexamples -/

/-- Environment whose generation backend always answers the text "x", whose
retrieval and copilot backends answer the same payload, and whose file
operations succeed.  "x" fails JSON decoding, so every decision defaults
to final. -/
def envG : Env :=
  Env.mk (fun _ _ => Except.ok (PyVal.dict [("response", PyVal.str "x")]))
    (Except.ok ()) (fun _ _ => Except.ok ()) (fun _ _ => Except.ok ())

/-- Environment in which every backend call and file operation fails. -/
def envFail : Env :=
  Env.mk (fun _ _ => Except.error (PyErr.backendError "down"))
    (Except.error (PyErr.oserror "down"))
    (fun _ _ => Except.error (PyErr.oserror "down"))
    (fun _ _ => Except.error (PyErr.oserror "down"))

/-- Environment whose markdown write fails while everything else works. -/
def envBadWrite : Env :=
  Env.mk (fun _ _ => Except.ok (PyVal.dict [("response", PyVal.str "x")]))
    (Except.ok ())
    (fun _ _ => Except.error (PyErr.oserror "disk"))
    (fun _ _ => Except.ok ())

/-- Chunk list of a normalization outcome (empty on error). -/
def chunks_of (x : Except PyErr RagResult) : List Chunk :=
  match x with
  | Except.ok rr => rr.chunks
  | Except.error _ => []

/-- Trace step numbers of a query outcome (empty on error). -/
def steps_of (x : Except PyErr QueryResult) : List Nat :=
  match x with
  | Except.ok r => r.agent_trace.map TraceStep.step
  | Except.error _ => []

/-- Payload with an explicit but empty `chunks` key and a non-empty
`retrieved` key. -/
def c4_resp : PyVal :=
  PyVal.dict [("chunks", PyVal.list []), ("retrieved", PyVal.list [PyVal.dict [("text", PyVal.str "a")]])]

/-- Payload whose snippet-list item is not an object. -/
def c8_resp : PyVal := PyVal.dict [("chunks", PyVal.list [PyVal.int 1])]

/-- Well-formed payload carrying its snippet list under `retrieved`. -/
def c8_good_resp : PyVal :=
  PyVal.dict [("retrieved", PyVal.list [PyVal.dict [("content", PyVal.str "t")]])]

/-- The scenario payload from the spec: one snippet under `results` and an
empty answer. -/
def c5_resp : PyVal :=
  PyVal.dict [("results", PyVal.list [PyVal.dict [("text", PyVal.str "Newton second law")]]),
              ("answer", PyVal.str "")]

/-- Normalization of `c5_resp` at `top_k = 8`. -/
def c5_rr : RagResult :=
  RagResult.mk (PyVal.str "")
    [Chunk.mk 1 (PyVal.str "chunk") PyVal.none PyVal.none (PyVal.str "Newton second law")]
    c5_resp

/-- Raw policy output decoding to an out-of-vocabulary action. -/
def c1_bad_action_raw : String :=
  lbraceS ++ "\"action\": \"banana\", \"reason\": \"because\"" ++ rbraceS

/-- Result of the manager run under `envG` with the question "q": the first
decision defaults to final, so the loop stops after one manager step. -/
def c2_witness_result : QueryResult :=
  QueryResult.mk "manager_auto" "q" 8 (PyVal.str "x") Option.none Option.none
    [TraceStep.mk 1 "manager" (PyVal.str "Stop and answer now. Reason: Failed to parse JSON; defaulting to final.")]
    Option.none Option.none

/-- Short-circuit result for an empty question in rag_only mode. -/
def c7_witness_result : QueryResult :=
  QueryResult.mk "rag_only" "" 8 (PyVal.str "") Option.none Option.none [] Option.none Option.none

/-! ## General lemmas about the embedding -/

theorem ebind_ok {α β : Type} (v : α) (f : α → Except PyErr β) :
    ebind (Except.ok v) f = f v := rfl

theorem ebind_error {α β : Type} (e : PyErr) (f : α → Except PyErr β) :
    ebind (Except.error e) f = Except.error e := rfl

theorem ebind_ok_iff {α β : Type} (x : Except PyErr α) (f : α → Except PyErr β) (b : β) :
    ebind x f = Except.ok b ↔ ∃ a, x = Except.ok a ∧ f a = Except.ok b := by
  cases x with
  | error e => simp [ebind]
  | ok a => simp [ebind]

theorem eOrElse_ok_truthy (v : PyVal) (b : Unit → Except PyErr PyVal)
    (h : pyTruthy v = true) : eOrElse (Except.ok v) b = Except.ok v := by
  simp [eOrElse, h]

theorem eOrElse_ok_falsy (v : PyVal) (b : Unit → Except PyErr PyVal)
    (h : pyTruthy v = false) : eOrElse (Except.ok v) b = b () := by
  simp [eOrElse, h]

theorem eOrElse_error (e : PyErr) (b : Unit → Except PyErr PyVal) :
    eOrElse (Except.error e) b = Except.error e := rfl

theorem decision_of_json_vocab (v : PyVal) :
    (decision_of_json v).action = "rag" ∨ (decision_of_json v).action = "copilot" ∨
      (decision_of_json v).action = "final" := by
  cases v with
  | dict kvs =>
    simp only [decision_of_json]
    by_cases hc :
      (asciiLower (pyStr (dictGetD kvs "action" (PyVal.str "final"))) = "rag" ||
       asciiLower (pyStr (dictGetD kvs "action" (PyVal.str "final"))) = "copilot" ||
       asciiLower (pyStr (dictGetD kvs "action" (PyVal.str "final"))) = "final") = true
    · simp only [hc, if_true]
      simp only [Bool.or_eq_true, decide_eq_true_eq] at hc
      rcases hc with (h | h) | h
      · exact Or.inl h
      · exact Or.inr (Or.inl h)
      · exact Or.inr (Or.inr h)
    · rw [Bool.not_eq_true] at hc
      simp only [hc, if_false]
      exact Or.inr (Or.inr rfl)
  | none => exact Or.inr (Or.inr rfl)
  | bool b => exact Or.inr (Or.inr rfl)
  | int n => exact Or.inr (Or.inr rfl)
  | floatLit s => exact Or.inr (Or.inr rfl)
  | str s => exact Or.inr (Or.inr rfl)
  | list xs => exact Or.inr (Or.inr rfl)

/-- C1 (amended): for every raw policy-model text, the decision parser is
total and never raises, its action is always one of rag / copilot / final;
on any decode failure it defaults to the action final with the diagnostic
reason "Failed to parse JSON; defaulting to final."; and when the decoded
object carries an action outside the vocabulary, the action is forced to
final while the decoded reason is preserved. -/
theorem c1_decision_parser_amended (raw : String) :
    ((parse_decision raw).action = "rag" ∨ (parse_decision raw).action = "copilot" ∨
      (parse_decision raw).action = "final") ∧
    (json_loads (trim_to_braces (pyStripStr raw)) = Option.none →
      parse_decision raw = Decision.mk "final" failParseMsg) ∧
    (∀ kvs : List (String × PyVal),
      json_loads (trim_to_braces (pyStripStr raw)) = Option.some (PyVal.dict kvs) →
      ((asciiLower (pyStr (dictGetD kvs "action" (PyVal.str "final"))) = "rag" ∨
        asciiLower (pyStr (dictGetD kvs "action" (PyVal.str "final"))) = "copilot" ∨
        asciiLower (pyStr (dictGetD kvs "action" (PyVal.str "final"))) = "final") → False) →
      parse_decision raw =
        Decision.mk "final" (pyStripStr (pyStr (dictGetD kvs "reason" (PyVal.str ""))))) := by
  refine ⟨?_, ?_, ?_⟩
  · simp only [parse_decision]
    cases h : json_loads (trim_to_braces (pyStripStr raw)) with
    | none => exact Or.inr (Or.inr rfl)
    | some v => exact decision_of_json_vocab v
  · intro h
    simp [parse_decision, h]
  · intro kvs h hn
    simp only [parse_decision, h]
    simp only [decision_of_json]
    by_cases hc :
      (asciiLower (pyStr (dictGetD kvs "action" (PyVal.str "final"))) = "rag" ||
       asciiLower (pyStr (dictGetD kvs "action" (PyVal.str "final"))) = "copilot" ||
       asciiLower (pyStr (dictGetD kvs "action" (PyVal.str "final"))) = "final") = true
    · exfalso
      apply hn
      simp only [Bool.or_eq_true, decide_eq_true_eq] at hc
      tauto
    · rw [Bool.not_eq_true] at hc
      simp [hc]

/-- C1 counterexample: the claim's default reason text does not match the
code (the code says "Failed to parse JSON; defaulting to final."), and an
out-of-vocabulary action keeps the decoded reason instead of the claimed
default. -/
theorem c1_decision_parser_counterexample :
    parse_decision "oops" = Decision.mk "final" "Failed to parse JSON; defaulting to final." ∧
    parse_decision c1_bad_action_raw = Decision.mk "final" "because" ∧
    ("Failed to parse JSON; defaulting to final." = "Failed to parse; defaulting to final." → False) ∧
    ("because" = "Failed to parse; defaulting to final." → False) :=
  ⟨rfl, by decide, by decide, by decide⟩

/-- C1 witness: the amended theorem applied to the concrete garbage text
"oops". -/
theorem c1_decision_parser_witness :
    json_loads (trim_to_braces (pyStripStr "oops")) = Option.none ∧
    parse_decision "oops" = Decision.mk "final" failParseMsg :=
  ⟨rfl, (c1_decision_parser_amended "oops").2.1 rfl⟩

theorem manager_loop_length (env : Env) (q : String) (k : Int) :
    ∀ (fuel : Nat) (hist : List TraceStep) (rr : Option RagResult) (cr : Option PyVal)
      (out : List TraceStep × Option RagResult × Option PyVal),
      manager_loop env q k fuel hist rr cr = Except.ok out →
      out.1.length ≤ hist.length + fuel := by
  intro fuel
  induction fuel with
  | zero =>
    intro hist rr cr out h
    simp only [manager_loop, Except.ok.injEq] at h
    subst h
    simp
  | succ n ih =>
    intro hist rr cr out h
    simp only [manager_loop] at h
    cases hd : decide_next_action env q hist with
    | error e =>
      rw [hd] at h
      simp [ebind] at h
    | ok d =>
      rw [hd, ebind_ok] at h
      by_cases hf : d.action = "final"
      · rw [if_pos hf] at h
        simp only [Except.ok.injEq] at h
        subst h
        simp only [List.length_append, List.length_cons, List.length_nil]
        omega
      · rw [if_neg hf] at h
        by_cases hr : d.action = "rag"
        · rw [if_pos hr] at h
          simp only [ebind_ok_iff] at h
          obtain ⟨raw, hraw, rres, hrres, s, hs, h⟩ := h
          have := ih _ _ _ _ h
          simp only [List.length_append, List.length_cons, List.length_nil] at this ⊢
          omega
        · rw [if_neg hr] at h
          by_cases hcp : d.action = "copilot"
          · rw [if_pos hcp] at h
            simp only [ebind_ok_iff] at h
            obtain ⟨craw, hcraw, av, hav, s, hs, h⟩ := h
            have := ih _ _ _ _ h
            simp only [List.length_append, List.length_cons, List.length_nil] at this ⊢
            omega
          · rw [if_neg hcp] at h
            have := ih _ _ _ _ h
            omega

/-- C2: the Manager Decision Engine loop is bounded: a run that returns a
result has appended at most N trace steps (N the step cap, 4 at the call
site), and a final decision exits the loop at once, appending exactly the
manager stop entry. -/
theorem c2_manager_loop_bounded :
    (∀ (env : Env) (q : String) (k : Int) (N : Nat) (r : QueryResult),
        run_manager_auto env q k N = Except.ok r → r.agent_trace.length ≤ N) ∧
    (∀ (env : Env) (q : String) (k : Int) (N : Nat) (hist : List TraceStep)
        (rr : Option RagResult) (cr : Option PyVal) (d : Decision),
        decide_next_action env q hist = Except.ok d → d.action = "final" →
        manager_loop env q k (N + 1) hist rr cr =
          Except.ok (hist ++ [TraceStep.mk (hist.length + 1) "manager"
            (PyVal.str ("Stop and answer now. Reason: " ++ d.reason))], rr, cr)) := by
  constructor
  · intro env q k N r h
    simp only [run_manager_auto] at h
    simp only [ebind_ok_iff] at h
    obtain ⟨out, hout, ans, hans, h⟩ := h
    simp only [Except.ok.injEq] at h
    subst h
    simpa using manager_loop_length env q k N [] Option.none Option.none out hout
  · intro env q k N hist rr cr d hd hf
    simp [manager_loop, hd, ebind_ok, hf]

/-- C2 witness: under `envG` the first decision defaults to final, the loop
stops after one step, and the bound 4 holds. -/
theorem c2_manager_loop_bounded_witness :
    run_manager_auto envG "q" 8 4 = Except.ok c2_witness_result ∧
    c2_witness_result.agent_trace.length ≤ 4 :=
  ⟨rfl, c2_manager_loop_bounded.1 envG "q" 8 4 c2_witness_result rfl⟩

/-- C3: an empty or whitespace-only question short-circuits: for every
environment (the theorem holds even when every backend call fails, so no
backend is consulted), every mode and every top_k, the result is the
neutral envelope: empty answer and question, null rag / copilot /
markdown_url / pdf_url, empty trace. -/
theorem c3_empty_question_short_circuit (env : Env) (q : String) (k : Int) (mode : String)
    (h : pyStripStr q = "") :
    run_workspace_query env q k mode =
      Except.ok (QueryResult.mk mode "" k (PyVal.str "")
        Option.none Option.none [] Option.none Option.none) := by
  simp [run_workspace_query, h]

/-- C3 witness: a whitespace-only question under the all-failing
environment still returns the neutral envelope. -/
theorem c3_empty_question_short_circuit_witness :
    pyStripStr "   " = "" ∧
    run_workspace_query envFail "   " 8 "manager_auto" =
      Except.ok (QueryResult.mk "manager_auto" "" 8 (PyVal.str "")
        Option.none Option.none [] Option.none Option.none) :=
  ⟨rfl, c3_empty_question_short_circuit envFail "   " 8 "manager_auto" rfl⟩

/-- C10: for every non-empty question the supplied mode is lower-cased and
dispatched: rag_only, study_guide and manager_auto go to their strategies,
and every other value — including the empty (absent) mode and the literal
"copilot" — goes to the copilot (assisted) strategy, whose result is
returned unchanged. -/
theorem c10_mode_dispatch (env : Env) (q : String) (k : Int) (mode : String)
    (hq : pyStripStr q ≠ "") :
    (asciiLower (if mode = "" then "copilot" else mode) = "rag_only" →
      run_workspace_query env q k mode = run_rag_only env (pyStripStr q) k) ∧
    (asciiLower (if mode = "" then "copilot" else mode) = "study_guide" →
      run_workspace_query env q k mode = run_study_guide env (pyStripStr q) k) ∧
    (asciiLower (if mode = "" then "copilot" else mode) = "manager_auto" →
      run_workspace_query env q k mode = manager_mode env (pyStripStr q) k) ∧
    (asciiLower (if mode = "" then "copilot" else mode) ≠ "rag_only" →
      asciiLower (if mode = "" then "copilot" else mode) ≠ "study_guide" →
      asciiLower (if mode = "" then "copilot" else mode) ≠ "manager_auto" →
      run_workspace_query env q k mode = run_copilot env (pyStripStr q) k) := by
  refine ⟨?_, ?_, ?_, ?_⟩
  · intro hm
    simp [run_workspace_query, hq, hm]
  · intro hm
    simp [run_workspace_query, hq, hm]
  · intro hm
    simp [run_workspace_query, hq, hm]
  · intro h1 h2 h3
    simp [run_workspace_query, hq, h1, h2, h3]

/-- C10 witness: the upper-case mode "RAG_ONLY" dispatches to the rag_only
strategy. -/
theorem c10_mode_dispatch_witness :
    pyStripStr "hi" ≠ "" ∧
    asciiLower (if ("RAG_ONLY" : String) = "" then "copilot" else "RAG_ONLY") = "rag_only" ∧
    run_workspace_query envFail "hi" 8 "RAG_ONLY" = run_rag_only envFail (pyStripStr "hi") 8 :=
  ⟨by decide, by decide, (c10_mode_dispatch envFail "hi" 8 "RAG_ONLY" (by decide)).1 (by decide)⟩

/-- C6: in manager_auto mode, a question containing "study guide",
"study plan" or "learning plan" (case-insensitively) bypasses the decision
loop: the result is exactly the study_guide strategy result with the
synthetic step-1 "study_guide (direct)" entry prepended and the mode
relabelled to manager_auto; in particular no policy-model decision is
consulted, since the result is a pure function of the study-guide run. -/
theorem c6_manager_study_override (env : Env) (q : String) (k : Int)
    (hq : pyStripStr q ≠ "")
    (hc : (strContains (asciiLower (pyStripStr q)) "study guide" ||
           strContains (asciiLower (pyStripStr q)) "study plan" ||
           strContains (asciiLower (pyStripStr q)) "learning plan") = true) :
    run_workspace_query env q k "manager_auto" =
      Except.map (fun sg => QueryResult.mk "manager_auto" sg.question sg.top_k sg.answer sg.rag
        sg.copilot (direct_step :: sg.agent_trace) sg.markdown_url sg.pdf_url)
        (run_study_guide env (pyStripStr q) k) ∧
    (∀ r : QueryResult, run_workspace_query env q k "manager_auto" = Except.ok r →
      r.agent_trace.head? = Option.some direct_step ∧ r.mode = "manager_auto") := by
  have hmode : asciiLower "manager_auto" = "manager_auto" := by decide
  have hdisp : run_workspace_query env q k "manager_auto" = manager_mode env (pyStripStr q) k := by
    simp [run_workspace_query, hq, hmode]
  have hover : manager_mode env (pyStripStr q) k =
      Except.map (fun sg => QueryResult.mk "manager_auto" sg.question sg.top_k sg.answer sg.rag
        sg.copilot (direct_step :: sg.agent_trace) sg.markdown_url sg.pdf_url)
        (run_study_guide env (pyStripStr q) k) := by
    simp only [manager_mode, hc, if_true]
    cases hsg : run_study_guide env (pyStripStr q) k with
    | error e => simp [ebind, Except.map]
    | ok sg => simp [ebind, Except.map]
  constructor
  · rw [hdisp, hover]
  · intro r hr
    rw [hdisp, hover] at hr
    cases hsg : run_study_guide env (pyStripStr q) k with
    | error e =>
      rw [hsg] at hr
      simp [Except.map] at hr
    | ok sg =>
      rw [hsg] at hr
      simp only [Except.map, Except.ok.injEq] at hr
      subst hr
      exact ⟨rfl, rfl⟩

/-- C6 witness: the spec scenario question under `envG`. -/
theorem c6_manager_study_override_witness :
    pyStripStr "make me a study plan for thermodynamics" ≠ "" ∧
    (strContains (asciiLower (pyStripStr "make me a study plan for thermodynamics")) "study guide" ||
     strContains (asciiLower (pyStripStr "make me a study plan for thermodynamics")) "study plan" ||
     strContains (asciiLower (pyStripStr "make me a study plan for thermodynamics")) "learning plan") = true ∧
    run_workspace_query envG "make me a study plan for thermodynamics" 8 "manager_auto" =
      Except.map (fun sg => QueryResult.mk "manager_auto" sg.question sg.top_k sg.answer sg.rag
        sg.copilot (direct_step :: sg.agent_trace) sg.markdown_url sg.pdf_url)
        (run_study_guide envG (pyStripStr "make me a study plan for thermodynamics") 8) :=
  ⟨by decide, by decide,
   (c6_manager_study_override envG "make me a study plan for thermodynamics" 8
     (by decide) (by decide)).1⟩

theorem map_chunks_shape (rawChunks : PyVal) (k : Int) (a1 a2 r1 r2 : PyVal) :
    (ebind (pySliceIter rawChunks k) fun items =>
      ebind (norm_items items 0) fun chunks =>
      Except.ok (RagResult.mk a1 chunks r1)).map RagResult.chunks =
    (ebind (pySliceIter rawChunks k) fun items =>
      ebind (norm_items items 0) fun chunks =>
      Except.ok (RagResult.mk a2 chunks r2)).map RagResult.chunks := by
  cases hs : pySliceIter rawChunks k with
  | error e => simp [ebind, Except.map]
  | ok items =>
    cases hn : norm_items items 0 with
    | error e => simp [ebind, Except.map, hn]
    | ok cs => simp [ebind, Except.map, hn]

theorem locate_chunks_single (v : PyVal) :
    locate_raw_chunks (PyVal.dict [("chunks", v)]) = Except.ok (pyOr v (PyVal.list [])) := by
  by_cases hv : pyTruthy v = true
  · simp [locate_raw_chunks, pyGet, dictGetD, dictLookup, eOrElse, pyOr, hv,
      show pyTruthy PyVal.none = false from rfl]
  · rw [Bool.not_eq_true] at hv
    simp [locate_raw_chunks, pyGet, dictGetD, dictLookup, eOrElse, pyOr, hv,
      show pyTruthy PyVal.none = false from rfl]

theorem locate_retrieved_single (v : PyVal) :
    locate_raw_chunks (PyVal.dict [("retrieved", v)]) = Except.ok (pyOr v (PyVal.list [])) := by
  by_cases hv : pyTruthy v = true
  · simp [locate_raw_chunks, pyGet, dictGetD, dictLookup, eOrElse, pyOr, hv,
      show pyTruthy PyVal.none = false from rfl]
  · rw [Bool.not_eq_true] at hv
    simp [locate_raw_chunks, pyGet, dictGetD, dictLookup, eOrElse, pyOr, hv,
      show pyTruthy PyVal.none = false from rfl]

theorem locate_results_single (v : PyVal) :
    locate_raw_chunks (PyVal.dict [("results", v)]) = Except.ok (pyOr v (PyVal.list [])) := by
  by_cases hv : pyTruthy v = true
  · simp [locate_raw_chunks, pyGet, dictGetD, dictLookup, eOrElse, pyOr, hv,
      show pyTruthy PyVal.none = false from rfl]
  · rw [Bool.not_eq_true] at hv
    simp [locate_raw_chunks, pyGet, dictGetD, dictLookup, eOrElse, pyOr, hv,
      show pyTruthy PyVal.none = false from rfl]

/-- C4 (amended): the snippet list is located under the first of
`chunks` / `retrieved` / `results` whose value is truthy; a key that is
present with a falsy value (for instance an explicit empty list) falls
through to the next alternative, and when all three are falsy or absent
the list is empty.  Key-name independence holds: a payload carrying the
same snippet value under any one of the three keys normalizes to the same
canonical chunk list. -/
theorem c4_normalizer_key_selection :
    (∀ (kvs : List (String × PyVal)),
      (pyTruthy (dictGetD kvs "chunks" PyVal.none) = true →
        locate_raw_chunks (PyVal.dict kvs) = Except.ok (dictGetD kvs "chunks" PyVal.none)) ∧
      (pyTruthy (dictGetD kvs "chunks" PyVal.none) = false →
       pyTruthy (dictGetD kvs "retrieved" PyVal.none) = true →
        locate_raw_chunks (PyVal.dict kvs) = Except.ok (dictGetD kvs "retrieved" PyVal.none)) ∧
      (pyTruthy (dictGetD kvs "chunks" PyVal.none) = false →
       pyTruthy (dictGetD kvs "retrieved" PyVal.none) = false →
       pyTruthy (dictGetD kvs "results" PyVal.none) = true →
        locate_raw_chunks (PyVal.dict kvs) = Except.ok (dictGetD kvs "results" PyVal.none)) ∧
      (pyTruthy (dictGetD kvs "chunks" PyVal.none) = false →
       pyTruthy (dictGetD kvs "retrieved" PyVal.none) = false →
       pyTruthy (dictGetD kvs "results" PyVal.none) = false →
        locate_raw_chunks (PyVal.dict kvs) = Except.ok (PyVal.list []))) ∧
    (∀ (v : PyVal) (k : Int),
      (normalise_rag_query (PyVal.dict [("chunks", v)]) k).map RagResult.chunks =
        (normalise_rag_query (PyVal.dict [("retrieved", v)]) k).map RagResult.chunks ∧
      (normalise_rag_query (PyVal.dict [("retrieved", v)]) k).map RagResult.chunks =
        (normalise_rag_query (PyVal.dict [("results", v)]) k).map RagResult.chunks) := by
  constructor
  · intro kvs
    refine ⟨?_, ?_, ?_, ?_⟩
    · intro h1
      simp [locate_raw_chunks, pyGet, eOrElse, h1]
    · intro h1 h2
      simp [locate_raw_chunks, pyGet, eOrElse, h1, h2]
    · intro h1 h2 h3
      simp [locate_raw_chunks, pyGet, eOrElse, h1, h2, h3]
    · intro h1 h2 h3
      simp [locate_raw_chunks, pyGet, eOrElse, h1, h2, h3]
  · intro v k
    have h1 : (normalise_rag_query (PyVal.dict [("chunks", v)]) k).map RagResult.chunks =
        (ebind (pySliceIter (pyOr v (PyVal.list [])) k) fun items =>
         ebind (norm_items items 0) fun chunks =>
         Except.ok (RagResult.mk (PyVal.str "") chunks
           (PyVal.dict [("chunks", v)]))).map RagResult.chunks := by
      simp [normalise_rag_query, locate_chunks_single, ebind_ok, pyGet, dictGetD,
        dictLookup, eOrElse, pyTruthy]
    have h2 : (normalise_rag_query (PyVal.dict [("retrieved", v)]) k).map RagResult.chunks =
        (ebind (pySliceIter (pyOr v (PyVal.list [])) k) fun items =>
         ebind (norm_items items 0) fun chunks =>
         Except.ok (RagResult.mk (PyVal.str "") chunks
           (PyVal.dict [("retrieved", v)]))).map RagResult.chunks := by
      simp [normalise_rag_query, locate_retrieved_single, ebind_ok, pyGet, dictGetD,
        dictLookup, eOrElse, pyTruthy]
    have h3 : (normalise_rag_query (PyVal.dict [("results", v)]) k).map RagResult.chunks =
        (ebind (pySliceIter (pyOr v (PyVal.list [])) k) fun items =>
         ebind (norm_items items 0) fun chunks =>
         Except.ok (RagResult.mk (PyVal.str "") chunks
           (PyVal.dict [("results", v)]))).map RagResult.chunks := by
      simp [normalise_rag_query, locate_results_single, ebind_ok, pyGet, dictGetD,
        dictLookup, eOrElse, pyTruthy]
    constructor
    · rw [h1, h2]
      exact map_chunks_shape _ k _ _ _ _
    · rw [h2, h3]
      exact map_chunks_shape _ k _ _ _ _

/-- C4 counterexample: a payload with an explicit but empty `chunks` key
and a non-empty `retrieved` key normalizes to the retrieved snippet, not
to the empty list the claimed strict key-priority would give. -/
theorem c4_normalizer_key_priority_counterexample :
    pyGet c4_resp "chunks" = Except.ok (PyVal.list []) ∧
    chunks_of (normalise_rag_query c4_resp 1) =
      [Chunk.mk 1 (PyVal.str "chunk") PyVal.none PyVal.none (PyVal.str "a")] ∧
    (chunks_of (normalise_rag_query c4_resp 1) = [] → False) := by
  refine ⟨rfl, rfl, ?_⟩
  intro hcontra
  rw [show chunks_of (normalise_rag_query c4_resp 1) =
      [Chunk.mk 1 (PyVal.str "chunk") PyVal.none PyVal.none (PyVal.str "a")] from rfl] at hcontra
  simp at hcontra

/-- C4 witness: the amended theorem applied to a payload with a truthy
explicit `chunks` value. -/
theorem c4_normalizer_key_selection_witness :
    pyTruthy (dictGetD [("chunks", PyVal.list [PyVal.int 1])] "chunks" PyVal.none) = true ∧
    locate_raw_chunks (PyVal.dict [("chunks", PyVal.list [PyVal.int 1])]) =
      Except.ok (dictGetD [("chunks", PyVal.list [PyVal.int 1])] "chunks" PyVal.none) :=
  ⟨by decide, (c4_normalizer_key_selection.1 [("chunks", PyVal.list [PyVal.int 1])]).1 (by decide)⟩

theorem norm_item_ok_idx (n : Nat) (item : PyVal) (c : Chunk)
    (h : norm_item n item = Except.ok c) : c.idx = n := by
  simp only [norm_item] at h
  simp only [ebind_ok_iff] at h
  obtain ⟨mRaw, hm, text, ht, source, hs, page, hp, cid, hcid, h⟩ := h
  simp only [Except.ok.injEq] at h
  subst h
  rfl

theorem norm_items_spec :
    ∀ (items : List PyVal) (i : Nat) (cs : List Chunk),
      norm_items items i = Except.ok cs →
      cs.length = items.length ∧
      cs.map Chunk.idx = List.range' (i + 1) items.length ∧
      ∀ (j : Nat) (hj : j < items.length), ∃ hc : j < cs.length,
        norm_item (i + j + 1) (items.get ⟨j, hj⟩) = Except.ok (cs.get ⟨j, hc⟩) := by
  intro items
  induction items with
  | nil =>
    intro i cs h
    simp only [norm_items, Except.ok.injEq] at h
    subst h
    refine ⟨rfl, by simp, ?_⟩
    intro j hj
    exact absurd hj (by simp)
  | cons it rest ih =>
    intro i cs h
    simp only [norm_items] at h
    rw [ebind_ok_iff] at h
    obtain ⟨c, hc, h⟩ := h
    rw [ebind_ok_iff] at h
    obtain ⟨cs2, hcs2, h⟩ := h
    simp only [Except.ok.injEq] at h
    subst h
    obtain ⟨hlen, hmap, hget⟩ := ih (i + 1) cs2 hcs2
    have hidx : c.idx = i + 1 := norm_item_ok_idx (i + 1) it c hc
    refine ⟨by simp [hlen], ?_, ?_⟩
    · simp only [List.map_cons, List.length_cons, hidx, hmap]
      rw [List.range'_succ]
    · intro j hj
      cases j with
      | zero =>
        refine ⟨by simp, ?_⟩
        simpa using hc
      | succ j2 =>
        have hj2 : j2 < rest.length := by simpa using hj
        obtain ⟨hc2, hn⟩ := hget j2 hj2
        refine ⟨by simpa using Nat.succ_lt_succ hc2, ?_⟩
        have harith : i + (j2 + 1) + 1 = i + 1 + j2 + 1 := by omega
        rw [harith]
        simpa using hn

/-- C5: for every retrieval payload and positive top_k, a successful
normalization yields chunks whose idx values are exactly 1..len in order;
and when the located snippet value is a list, the chunk list has length
min(top_k, number returned) and its j-th element is the normalization of
the j-th backend item, so backend order is preserved. -/
theorem c5_normalizer_idx_contiguous (resp : PyVal) (k : Int) (rr : RagResult)
    (hk : 0 < k) (h : normalise_rag_query resp k = Except.ok rr) :
    rr.chunks.map Chunk.idx = List.range' 1 rr.chunks.length ∧
    (∀ items : List PyVal, locate_raw_chunks resp = Except.ok (PyVal.list items) →
      rr.chunks.length = min k.toNat items.length ∧
      ∀ (j : Nat) (hj : j < rr.chunks.length), ∃ hi : j < items.length,
        norm_item (j + 1) (items.get ⟨j, hi⟩) = Except.ok (rr.chunks.get ⟨j, hj⟩)) := by
  simp only [normalise_rag_query] at h
  simp only [ebind_ok_iff] at h
  obtain ⟨rawC, hloc, items0, hslice, cs, hnorm, ans, hans, h⟩ := h
  simp only [Except.ok.injEq] at h
  subst h
  obtain ⟨hlen, hmap, hget⟩ := norm_items_spec items0 0 cs hnorm
  constructor
  · show cs.map Chunk.idx = List.range' 1 cs.length
    rw [hlen]
    simpa using hmap
  · intro items hloc2
    rw [hloc] at hloc2
    have hraw : rawC = PyVal.list items := by
      simpa using hloc2
    subst hraw
    have hk0 : (0 : Int) ≤ k := le_of_lt hk
    simp only [pySliceIter, pyTakeInt, if_pos hk0, Except.ok.injEq] at hslice
    subst hslice
    constructor
    · show cs.length = min k.toNat items.length
      rw [hlen]
      exact List.length_take k.toNat items
    · intro j hj
      have hj0 : j < (items.take k.toNat).length := hlen ▸ hj
      have hjI : j < items.length := by
        have := List.length_take k.toNat items
        omega
      refine ⟨hjI, ?_⟩
      obtain ⟨hc2, hn⟩ := hget j hj0
      have : (items.take k.toNat).get ⟨j, hj0⟩ = items.get ⟨j, hjI⟩ := by
        simp [List.get_eq_getElem, List.getElem_take]
      rw [this] at hn
      simpa using hn

/-- C5 witness: the spec scenario — one snippet under `results`, top_k 8 —
normalizes to a single chunk with idx 1. -/
theorem c5_normalizer_idx_contiguous_witness :
    (0 : Int) < 8 ∧
    normalise_rag_query c5_resp 8 = Except.ok c5_rr ∧
    c5_rr.chunks.map Chunk.idx = List.range' 1 c5_rr.chunks.length :=
  ⟨by decide, rfl, (c5_normalizer_idx_contiguous c5_resp 8 c5_rr (by decide) rfl).1⟩

theorem run_rag_only_trace (env : Env) (q : String) (k : Int) (r : QueryResult)
    (h : run_rag_only env q k = Except.ok r) : r.agent_trace = [] := by
  simp only [run_rag_only] at h
  rw [ebind_ok_iff] at h
  obtain ⟨raw, hraw, h⟩ := h
  rw [ebind_ok_iff] at h
  obtain ⟨rr, hrr, h⟩ := h
  by_cases hcond :
    (!(pyTruthy (pyOr rr.answer (PyVal.str ""))) && !(rr.chunks.isEmpty)) = true
  · rw [if_pos hcond] at h
    rw [ebind_ok_iff] at h
    obtain ⟨ans, hans, h⟩ := h
    simp only [Except.ok.injEq] at h
    subst h
    rfl
  · rw [if_neg hcond] at h
    simp only [Except.ok.injEq] at h
    subst h
    rfl

theorem run_copilot_trace (env : Env) (q : String) (k : Int) (r : QueryResult)
    (h : run_copilot env q k = Except.ok r) : r.agent_trace = [] := by
  simp only [run_copilot] at h
  rw [ebind_ok_iff] at h
  obtain ⟨raw, hraw, h⟩ := h
  rw [ebind_ok_iff] at h
  obtain ⟨rr, hrr, h⟩ := h
  rw [ebind_ok_iff] at h
  obtain ⟨cres, hcres, h⟩ := h
  rw [ebind_ok_iff] at h
  obtain ⟨answer, hanswer, h⟩ := h
  by_cases hcond : (!(pyTruthy answer) && !(rr.chunks.isEmpty)) = true
  · rw [if_pos hcond] at h
    rw [ebind_ok_iff] at h
    obtain ⟨ans, hans, h⟩ := h
    simp only [Except.ok.injEq] at h
    subst h
    rfl
  · rw [if_neg hcond] at h
    simp only [Except.ok.injEq] at h
    subst h
    rfl

theorem run_study_guide_steps (env : Env) (q : String) (k : Int) (r : QueryResult)
    (h : run_study_guide env q k = Except.ok r) :
    r.agent_trace.map TraceStep.step = [1, 2, 3] := by
  simp only [run_study_guide] at h
  simp only [ebind_ok_iff] at h
  obtain ⟨raw, hraw, rr, hrr, guide, hg, info, hi, h⟩ := h
  simp only [Except.ok.injEq] at h
  subst h
  rfl

theorem manager_loop_steps (env : Env) (q : String) (k : Int) :
    ∀ (fuel : Nat) (hist : List TraceStep) (rr : Option RagResult) (cr : Option PyVal)
      (out : List TraceStep × Option RagResult × Option PyVal),
      hist.map TraceStep.step = List.range' 1 hist.length →
      manager_loop env q k fuel hist rr cr = Except.ok out →
      out.1.map TraceStep.step = List.range' 1 out.1.length := by
  intro fuel
  induction fuel with
  | zero =>
    intro hist rr cr out hinv h
    simp only [manager_loop, Except.ok.injEq] at h
    subst h
    exact hinv
  | succ n ih =>
    intro hist rr cr out hinv h
    have happend : ∀ (t : String) (sv : PyVal),
        (hist ++ [TraceStep.mk (hist.length + 1) t sv]).map TraceStep.step =
          List.range' 1 (hist ++ [TraceStep.mk (hist.length + 1) t sv]).length := by
      intro t sv
      rw [List.map_append, hinv, List.length_append]
      simp [List.range'_concat, Nat.add_comm]
    simp only [manager_loop] at h
    cases hd : decide_next_action env q hist with
    | error e =>
      rw [hd] at h
      simp [ebind] at h
    | ok d =>
      rw [hd, ebind_ok] at h
      by_cases hf : d.action = "final"
      · rw [if_pos hf] at h
        simp only [Except.ok.injEq] at h
        subst h
        exact happend _ _
      · rw [if_neg hf] at h
        by_cases hr : d.action = "rag"
        · rw [if_pos hr] at h
          simp only [ebind_ok_iff] at h
          obtain ⟨raw, hraw, rres, hrres, s, hs, h⟩ := h
          exact ih _ _ _ _ (happend _ _) h
        · rw [if_neg hr] at h
          by_cases hcp : d.action = "copilot"
          · rw [if_pos hcp] at h
            simp only [ebind_ok_iff] at h
            obtain ⟨craw, hcraw, av, hav, s, hs, h⟩ := h
            exact ih _ _ _ _ (happend _ _) h
          · rw [if_neg hcp] at h
            exact ih _ _ _ _ hinv h

theorem run_manager_auto_steps (env : Env) (q : String) (k : Int) (N : Nat) (r : QueryResult)
    (h : run_manager_auto env q k N = Except.ok r) :
    r.agent_trace.map TraceStep.step = List.range' 1 r.agent_trace.length := by
  simp only [run_manager_auto] at h
  simp only [ebind_ok_iff] at h
  obtain ⟨out, hout, ans, hans, h⟩ := h
  simp only [Except.ok.injEq] at h
  subst h
  exact manager_loop_steps env q k N [] Option.none Option.none out (by simp) hout

/-- C7 (amended): in every returned result the trace steps are exactly
1, 2, ..., n (strictly increasing from 1), except in the manager_auto
study-guide override, where the prepended synthetic entry repeats step 1
and the steps are exactly [1, 1, 2, 3]. -/
theorem c7_trace_steps_shape (env : Env) (q : String) (k : Int) (mode : String) (r : QueryResult)
    (h : run_workspace_query env q k mode = Except.ok r) :
    r.agent_trace.map TraceStep.step = List.range' 1 r.agent_trace.length ∨
    r.agent_trace.map TraceStep.step = [1, 1, 2, 3] := by
  simp only [run_workspace_query] at h
  by_cases hq : pyStripStr q = ""
  · rw [if_pos hq] at h
    simp only [Except.ok.injEq] at h
    subst h
    left
    rfl
  · rw [if_neg hq] at h
    by_cases h1 : asciiLower (if mode = "" then "copilot" else mode) = "rag_only"
    · rw [if_pos h1] at h
      left
      rw [run_rag_only_trace env _ k r h]
      rfl
    · rw [if_neg h1] at h
      by_cases h2 : asciiLower (if mode = "" then "copilot" else mode) = "study_guide"
      · rw [if_pos h2] at h
        left
        have hsteps := run_study_guide_steps env _ k r h
        have hlen : r.agent_trace.length = 3 := by
          have := congrArg List.length hsteps
          simpa using this
        rw [hsteps, hlen]
        rfl
      · rw [if_neg h2] at h
        by_cases h3 : asciiLower (if mode = "" then "copilot" else mode) = "manager_auto"
        · rw [if_pos h3] at h
          simp only [manager_mode] at h
          by_cases hc :
            (strContains (asciiLower (pyStripStr q)) "study guide" ||
             strContains (asciiLower (pyStripStr q)) "study plan" ||
             strContains (asciiLower (pyStripStr q)) "learning plan") = true
          · rw [if_pos hc] at h
            rw [ebind_ok_iff] at h
            obtain ⟨sg, hsg, h⟩ := h
            simp only [Except.ok.injEq] at h
            subst h
            right
            have hsteps := run_study_guide_steps env _ k sg hsg
            show (direct_step :: sg.agent_trace).map TraceStep.step = [1, 1, 2, 3]
            simp [direct_step, hsteps]
          · rw [if_neg hc] at h
            left
            exact run_manager_auto_steps env _ k 4 r h
        · rw [if_neg h3] at h
          left
          rw [run_copilot_trace env _ k r h]
          rfl

/-- C7 counterexample: the manager_auto study-guide override produces the
trace steps [1, 1, 2, 3], whose second entry does not strictly exceed the
first, refuting strict monotonicity. -/
theorem c7_trace_steps_counterexample :
    steps_of (run_workspace_query envG "make me a study plan" 8 "manager_auto") = [1, 1, 2, 3] ∧
    (List.Chain' Nat.lt [1, 1, 2, 3] → False) :=
  ⟨rfl, fun hch => by
    rw [List.chain'_cons] at hch
    exact absurd hch.1 (Nat.lt_irrefl 1)⟩

/-- C7 witness: the amended theorem applied to a concrete empty-question
run, whose trace [] is the strictly increasing shape. -/
theorem c7_trace_steps_shape_witness :
    run_workspace_query envFail "" 8 "rag_only" = Except.ok c7_witness_result ∧
    (c7_witness_result.agent_trace.map TraceStep.step =
        List.range' 1 c7_witness_result.agent_trace.length ∨
     c7_witness_result.agent_trace.map TraceStep.step = [1, 1, 2, 3]) :=
  ⟨rfl, c7_trace_steps_shape envFail "" 8 "rag_only" c7_witness_result rfl⟩

theorem eOrElse_ok_of (a : Except PyErr PyVal) (b : Unit → Except PyErr PyVal)
    (va : PyVal) (ha : a = Except.ok va) (hb : ∃ vb, b () = Except.ok vb) :
    ∃ v, eOrElse a b = Except.ok v := by
  subst ha
  by_cases hv : pyTruthy va = true
  · exact ⟨va, by simp [eOrElse, hv]⟩
  · rw [Bool.not_eq_true] at hv
    obtain ⟨vb, hvb⟩ := hb
    exact ⟨vb, by simp [eOrElse, hv, hvb]⟩

theorem pyGet_dict (kvs : List (String × PyVal)) (key : String) :
    pyGet (PyVal.dict kvs) key = Except.ok (dictGetD kvs key PyVal.none) := rfl

theorem norm_item_good (i : Nat) (item : PyVal) (hgood : good_item item = true) :
    ∃ c, norm_item i item = Except.ok c := by
  cases item with
  | dict kvs =>
    have hmd : ∃ mkvs, pyOr (dictGetD kvs "metadata" PyVal.none) (PyVal.dict []) =
        PyVal.dict mkvs := by
      simp only [good_item] at hgood
      cases hpm : pyOr (dictGetD kvs "metadata" PyVal.none) (PyVal.dict []) with
      | dict mkvs => exact ⟨mkvs, rfl⟩
      | none => rw [hpm] at hgood; simp at hgood
      | bool b => rw [hpm] at hgood; simp at hgood
      | int n => rw [hpm] at hgood; simp at hgood
      | floatLit s => rw [hpm] at hgood; simp at hgood
      | str s => rw [hpm] at hgood; simp at hgood
      | list xs => rw [hpm] at hgood; simp at hgood
    obtain ⟨mkvs, hmk⟩ := hmd
    simp only [norm_item, pyGet_dict, ebind_ok]
    rw [hmk]
    simp only [pyGet_dict]
    obtain ⟨tv, htv⟩ :=
      eOrElse_ok_of (Except.ok (dictGetD kvs "content" PyVal.none))
        (fun _ => eOrElse (Except.ok (dictGetD kvs "text" PyVal.none))
          (fun _ => eOrElse (Except.ok (dictGetD kvs "page_content" PyVal.none))
            (fun _ => eOrElse (Except.ok (dictGetD mkvs "text" PyVal.none))
              (fun _ => Except.ok (PyVal.str "")))))
        (dictGetD kvs "content" PyVal.none) rfl
        (eOrElse_ok_of (Except.ok (dictGetD kvs "text" PyVal.none))
          (fun _ => eOrElse (Except.ok (dictGetD kvs "page_content" PyVal.none))
            (fun _ => eOrElse (Except.ok (dictGetD mkvs "text" PyVal.none))
              (fun _ => Except.ok (PyVal.str ""))))
          (dictGetD kvs "text" PyVal.none) rfl
          (eOrElse_ok_of (Except.ok (dictGetD kvs "page_content" PyVal.none))
            (fun _ => eOrElse (Except.ok (dictGetD mkvs "text" PyVal.none))
              (fun _ => Except.ok (PyVal.str "")))
            (dictGetD kvs "page_content" PyVal.none) rfl
            (eOrElse_ok_of (Except.ok (dictGetD mkvs "text" PyVal.none))
              (fun _ => Except.ok (PyVal.str ""))
              (dictGetD mkvs "text" PyVal.none) rfl
              ⟨PyVal.str "", rfl⟩)))
    rw [htv]
    simp only [ebind_ok]
    obtain ⟨sv, hsv⟩ :=
      eOrElse_ok_of (Except.ok (dictGetD kvs "source" PyVal.none))
        (fun _ => eOrElse (Except.ok (dictGetD mkvs "source" PyVal.none))
          (fun _ => eOrElse (Except.ok (dictGetD mkvs "file_name" PyVal.none))
            (fun _ => Except.ok (PyVal.str "chunk"))))
        (dictGetD kvs "source" PyVal.none) rfl
        (eOrElse_ok_of (Except.ok (dictGetD mkvs "source" PyVal.none))
          (fun _ => eOrElse (Except.ok (dictGetD mkvs "file_name" PyVal.none))
            (fun _ => Except.ok (PyVal.str "chunk")))
          (dictGetD mkvs "source" PyVal.none) rfl
          (eOrElse_ok_of (Except.ok (dictGetD mkvs "file_name" PyVal.none))
            (fun _ => Except.ok (PyVal.str "chunk"))
            (dictGetD mkvs "file_name" PyVal.none) rfl
            ⟨PyVal.str "chunk", rfl⟩))
    rw [hsv]
    simp only [ebind_ok]
    obtain ⟨cv, hcv⟩ :=
      eOrElse_ok_of (Except.ok (dictGetD kvs "chunk_id" PyVal.none))
        (fun _ => Except.ok (dictGetD mkvs "chunk_id" PyVal.none))
        (dictGetD kvs "chunk_id" PyVal.none) rfl
        ⟨dictGetD mkvs "chunk_id" PyVal.none, rfl⟩
    rw [hcv]
    simp only [ebind_ok]
    exact ⟨_, rfl⟩
  | none => simp [good_item] at hgood
  | bool b => simp [good_item] at hgood
  | int n => simp [good_item] at hgood
  | floatLit s => simp [good_item] at hgood
  | str s => simp [good_item] at hgood
  | list xs => simp [good_item] at hgood

theorem norm_items_good : ∀ (items : List PyVal) (i : Nat),
    items.all good_item = true → ∃ cs, norm_items items i = Except.ok cs := by
  intro items
  induction items with
  | nil => intro i _; exact ⟨[], rfl⟩
  | cons it rest ih =>
    intro i h
    simp only [List.all_cons, Bool.and_eq_true] at h
    obtain ⟨c, hc⟩ := norm_item_good (i + 1) it h.1
    obtain ⟨cs, hcs⟩ := ih (i + 1) h.2
    exact ⟨c :: cs, by simp [norm_items, hc, hcs, ebind_ok]⟩

/-- C8 (amended): normalization is a pure function and it never fails on
well-formed payloads — an object payload whose located snippet value is a
list of objects with object (or absent/falsy) metadata; in the worst case
(an empty object payload) it yields an empty chunk list and an empty
answer text.  On other shapes the source raises (see the counterexample),
so totality holds only on this domain. -/
theorem c8_normalizer_total_on_wellformed :
    (∀ (resp : PyVal) (k : Int), good_payload resp k = true →
      ∃ rr, normalise_rag_query resp k = Except.ok rr) ∧
    (∀ k : Int, normalise_rag_query (PyVal.dict []) k =
      Except.ok (RagResult.mk (PyVal.str "") [] (PyVal.dict []))) := by
  constructor
  · intro resp k hgood
    cases resp with
    | dict kvs =>
      simp only [good_payload] at hgood
      cases hloc : locate_raw_chunks (PyVal.dict kvs) with
      | error e => rw [hloc] at hgood; simp at hgood
      | ok rawv =>
        rw [hloc] at hgood
        cases rawv with
        | list xs =>
          simp only [] at hgood
          obtain ⟨cs, hcs⟩ := norm_items_good (pyTakeInt xs k) 0 hgood
          obtain ⟨av, hav⟩ :=
            eOrElse_ok_of (pyGet (PyVal.dict kvs) "answer")
              (fun _ => Except.ok (PyVal.str ""))
              (dictGetD kvs "answer" PyVal.none) rfl ⟨PyVal.str "", rfl⟩
          refine ⟨RagResult.mk av cs (PyVal.dict kvs), ?_⟩
          simp [normalise_rag_query, hloc, ebind_ok, pySliceIter, hcs, hav]
        | none => simp at hgood
        | bool b => simp at hgood
        | int n => simp at hgood
        | floatLit s => simp at hgood
        | str s => simp at hgood
        | dict kvs2 => simp at hgood
    | none => simp [good_payload] at hgood
    | bool b => simp [good_payload] at hgood
    | int n => simp [good_payload] at hgood
    | floatLit s => simp [good_payload] at hgood
    | str s => simp [good_payload] at hgood
    | list xs => simp [good_payload] at hgood
  · intro k
    by_cases hk : (0 : Int) ≤ k <;>
      simp [normalise_rag_query, locate_raw_chunks, pyGet, dictGetD, dictLookup, eOrElse,
        pySliceIter, pyTakeInt, hk, norm_items, ebind,
        show pyTruthy PyVal.none = false from rfl]

/-- C8 counterexample: a payload whose snippet item is the integer 1 makes
the source raise AttributeError on `item.get`, refuting the claim that
normalization is total on payloads of any shape. -/
theorem c8_normalizer_not_total_counterexample :
    normalise_rag_query c8_resp 8 = Except.error (PyErr.attributeError "get") := rfl

/-- C8 witness: the amended theorem applied to a concrete well-formed
payload. -/
theorem c8_normalizer_total_witness :
    good_payload c8_good_resp 8 = true ∧
    (∃ rr, normalise_rag_query c8_good_resp 8 = Except.ok rr) :=
  ⟨by decide, c8_normalizer_total_on_wellformed.1 c8_good_resp 8 (by decide)⟩

/-- C9: in Document Export the primary markdown write is fatal — its
failure propagates out of `_save_study_guide_files` and makes the whole
study-guide strategy fail — while any failure of the secondary PDF
rendering is swallowed: the export still returns with both PDF fields
absent, and a returned study-guide result under an always-failing PDF
renderer carries a null pdf_url next to a present markdown_url. -/
theorem c9_export_primary_fatal_secondary_swallowed :
    (∀ (env : Env) (text q : String) (e : PyErr),
        env.mkdirStudyGuides = Except.ok () →
        env.writeText (md_path_of q) text = Except.error e →
        save_study_guide_files env text q = Except.error e) ∧
    (∀ (env : Env) (text q : String) (e : PyErr),
        env.mkdirStudyGuides = Except.ok () →
        env.writeText (md_path_of q) text = Except.ok () →
        env.renderPdf (pdf_path_of q) text = Except.error e →
        save_study_guide_files env text q =
          Except.ok (SaveInfo.mk (md_path_of q) (md_url_of q) Option.none Option.none)) ∧
    (∀ (env : Env) (e : PyErr), (∀ p c, env.writeText p c = Except.error e) →
        ∀ (q : String) (k : Int) (r : QueryResult),
          run_study_guide env q k = Except.ok r → False) ∧
    (∀ (env : Env) (e : PyErr), (∀ p c, env.renderPdf p c = Except.error e) →
        ∀ (q : String) (k : Int) (r : QueryResult),
          run_study_guide env q k = Except.ok r →
          r.pdf_url = Option.none ∧ r.markdown_url = Option.some (md_url_of q)) := by
  refine ⟨?_, ?_, ?_, ?_⟩
  · intro env text q e h1 h2
    simp [save_study_guide_files, h1, h2, ebind]
  · intro env text q e h1 h2 h3
    simp [save_study_guide_files, h1, h2, h3, ebind]
  · intro env e hw q k r h
    simp only [run_study_guide] at h
    simp only [ebind_ok_iff] at h
    obtain ⟨raw, hraw, rr, hrr, guide, hg, info, hi, h⟩ := h
    simp only [save_study_guide_files] at hi
    cases hm : env.mkdirStudyGuides with
    | error e2 => rw [hm] at hi; simp [ebind] at hi
    | ok u =>
      rw [hm, ebind_ok] at hi
      rw [hw (md_path_of q) guide] at hi
      simp [ebind] at hi
  · intro env e hp q k r h
    simp only [run_study_guide] at h
    simp only [ebind_ok_iff] at h
    obtain ⟨raw, hraw, rr, hrr, guide, hg, info, hi, h⟩ := h
    simp only [Except.ok.injEq] at h
    subst h
    simp only [save_study_guide_files] at hi
    cases hm : env.mkdirStudyGuides with
    | error e2 => rw [hm] at hi; simp [ebind] at hi
    | ok u =>
      rw [hm, ebind_ok] at hi
      cases hwv : env.writeText (md_path_of q) guide with
      | error e2 => rw [hwv] at hi; simp [ebind] at hi
      | ok u2 =>
        rw [hwv, ebind_ok] at hi
        rw [hp (pdf_path_of q) guide] at hi
        simp only [Except.ok.injEq] at hi
        subst hi
        exact ⟨rfl, rfl⟩

/-- C9 witness: under an environment whose markdown write fails with a
disk error, the export fails with exactly that error. -/
theorem c9_export_witness :
    envBadWrite.mkdirStudyGuides = Except.ok () ∧
    envBadWrite.writeText (md_path_of "q") "text" = Except.error (PyErr.oserror "disk") ∧
    save_study_guide_files envBadWrite "text" "q" = Except.error (PyErr.oserror "disk") :=
  ⟨rfl, rfl, c9_export_primary_fatal_secondary_swallowed.1 envBadWrite "text" "q"
    (PyErr.oserror "disk") rfl rfl⟩
